import Mathlib

/-!
Verification development for the media-sticky desktop sticky-notes
application.  The main-process card registry (modules_main/card.ts), the
IPC handlers and startup sequence (main.ts) and the focus-suppression
listeners are embedded as pure Lean functions over an explicit
application state.  The persistence layer (CardIO), the url decomposition
helpers and the prop constructors live in modules that are not part of
the vendored sources; those are modelled from the specification and are
marked as such in their doc comments.
-/

namespace MediaSticky

/- ### Association-list helpers

JavaScript Map/object registries (`cards`, `avatars`, `prop.avatars`) are
embedded as insertion-ordered association lists keyed by strings. -/

/-- First-match lookup, the semantics of Map.get / object indexing. -/
def lookupKey {α : Type} (k : String) : List (String × α) → Option α
  | [] => none
  | (k1, v) :: rest => if k1 = k then some v else lookupKey k rest

/-- Map.set / object assignment: overwrite in place, else append. -/
def setKey {α : Type} (k : String) (v : α) : List (String × α) → List (String × α)
  | [] => [(k, v)]
  | (k1, v1) :: rest => if k1 = k then (k, v) :: rest else (k1, v1) :: setKey k v rest

/-- Map.delete / object delete: remove every entry with the key. -/
def eraseKey {α : Type} (k : String) : List (String × α) → List (String × α)
  | [] => []
  | (k1, v1) :: rest => if k1 = k then eraseKey k rest else (k1, v1) :: eraseKey k rest

/-- The keys of a registry, in insertion order. -/
def keysOf {α : Type} (l : List (String × α)) : List String := l.map Prod.fst

@[simp] theorem lookupKey_setKey_self {α : Type} (k : String) (v : α)
    (l : List (String × α)) : lookupKey k (setKey k v l) = some v := by
  induction l with
  | nil => simp [lookupKey, setKey]
  | cons hd tl ih =>
    obtain ⟨k1, v1⟩ := hd
    by_cases h : k1 = k <;> simp [lookupKey, setKey, h, ih]

theorem lookupKey_setKey_ne {α : Type} {k j : String} (v : α)
    (l : List (String × α)) (h : j ≠ k) :
    lookupKey j (setKey k v l) = lookupKey j l := by
  have hk : ¬k = j := fun he => h he.symm
  induction l with
  | nil => simp [lookupKey, setKey, hk]
  | cons hd tl ih =>
    obtain ⟨k1, v1⟩ := hd
    by_cases h1 : k1 = k
    · subst h1
      simp [lookupKey, setKey, hk]
    · simp [lookupKey, setKey, h1, ih]

@[simp] theorem lookupKey_eraseKey_self {α : Type} (k : String)
    (l : List (String × α)) : lookupKey k (eraseKey k l) = none := by
  induction l with
  | nil => simp [lookupKey, eraseKey]
  | cons hd tl ih =>
    obtain ⟨k1, v1⟩ := hd
    by_cases h : k1 = k <;> simp [lookupKey, eraseKey, h, ih]

theorem lookupKey_eraseKey_ne {α : Type} {k j : String}
    (l : List (String × α)) (h : j ≠ k) :
    lookupKey j (eraseKey k l) = lookupKey j l := by
  have hk : ¬k = j := fun he => h he.symm
  induction l with
  | nil => simp [lookupKey, eraseKey]
  | cons hd tl ih =>
    obtain ⟨k1, v1⟩ := hd
    by_cases h1 : k1 = k
    · subst h1
      simp [lookupKey, eraseKey, hk, ih]
    · simp [lookupKey, eraseKey, h1, ih]

@[simp] theorem keysOf_nil {α : Type} : keysOf ([] : List (String × α)) = [] := rfl

@[simp] theorem keysOf_cons {α : Type} (k : String) (v : α) (l : List (String × α)) :
    keysOf ((k, v) :: l) = k :: keysOf l := rfl

theorem keysOf_setKey_new {α : Type} {k : String} (v : α)
    {l : List (String × α)} (h : lookupKey k l = none) :
    keysOf (setKey k v l) = keysOf l ++ [k] := by
  induction l with
  | nil => simp [setKey]
  | cons hd tl ih =>
    obtain ⟨k1, v1⟩ := hd
    by_cases h1 : k1 = k
    · simp [lookupKey, h1] at h
    · simp [lookupKey, h1] at h
      rw [setKey]
      simp only [h1, if_false, keysOf_cons, ih h, List.cons_append]

theorem mem_keysOf_of_lookupKey {α : Type} {k : String} {v : α}
    {l : List (String × α)} (h : lookupKey k l = some v) : k ∈ keysOf l := by
  induction l with
  | nil => simp [lookupKey] at h
  | cons hd tl ih =>
    obtain ⟨k1, v1⟩ := hd
    by_cases h1 : k1 = k
    · rw [keysOf_cons, h1]
      exact List.mem_cons_self k (keysOf tl)
    · simp [lookupKey, h1] at h
      rw [keysOf_cons]
      exact List.mem_cons_of_mem k1 (ih h)

theorem lookupKey_isSome_of_mem_keysOf {α : Type} {k : String}
    {l : List (String × α)} (h : k ∈ keysOf l) : (lookupKey k l).isSome = true := by
  induction l with
  | nil => simp [keysOf] at h
  | cons hd tl ih =>
    obtain ⟨k1, v1⟩ := hd
    by_cases h1 : k1 = k
    · simp [lookupKey, h1]
    · rw [keysOf_cons, List.mem_cons] at h
      rcases h with h | h

      · exact absurd h.symm h1
      · simp [lookupKey, h1]
        exact ih h

/- ### Sorting by z

Embeds the ascending comparator passed to Array.prototype.sort over
`[...avatars.keys()]` (renderer.ts startup, bring-to-front, send-to-back):
a stable insertion sort with respect to a measure m into Int. -/

/-- Stable ordered insertion with respect to the measure m. -/
def insertZ (m : String → Int) (u : String) : List String → List String
  | [] => [u]
  | v :: vs => if m u < m v then u :: v :: vs else v :: insertZ m u vs

/-- Stable sort of the key list in ascending m order (the z comparator). -/
def sortByZ (m : String → Int) : List String → List String
  | [] => []
  | u :: us => insertZ m u (sortByZ m us)

theorem perm_insertZ (m : String → Int) (u : String) (l : List String) :
    (insertZ m u l).Perm (u :: l) := by
  induction l with
  | nil => exact List.Perm.refl _
  | cons v vs ih =>
    rw [insertZ]
    by_cases h : m u < m v
    · simp [h]
    · simp only [h, if_false]
      exact (ih.cons v).trans (List.Perm.swap u v vs)

theorem perm_sortByZ (m : String → Int) (l : List String) :
    (sortByZ m l).Perm l := by
  induction l with
  | nil => exact List.Perm.refl _
  | cons u us ih =>
    exact (perm_insertZ m u (sortByZ m us)).trans (ih.cons u)

theorem mem_insertZ {m : String → Int} {u x : String} {l : List String} :
    x ∈ insertZ m u l ↔ x = u ∨ x ∈ l := by
  rw [(perm_insertZ m u l).mem_iff, List.mem_cons]

theorem sorted_insertZ {m : String → Int} {u : String} {l : List String}
    (h : l.Pairwise (fun a b => m a ≤ m b)) :
    (insertZ m u l).Pairwise (fun a b => m a ≤ m b) := by
  induction l with
  | nil => simp [insertZ]
  | cons v vs ih =>
    rw [List.pairwise_cons] at h
    rw [insertZ]
    by_cases hlt : m u < m v
    · simp only [hlt, if_true]
      refine List.Pairwise.cons ?_ (List.Pairwise.cons h.1 h.2)
      intro b hb
      rcases List.mem_cons.mp hb with hb | hb
      · exact le_of_lt (hb ▸ hlt)
      · exact le_trans (le_of_lt hlt) (h.1 b hb)
    · simp only [hlt, if_false]
      refine List.Pairwise.cons ?_ (ih h.2)
      intro b hb
      rcases mem_insertZ.mp hb with hb | hb
      · exact hb ▸ le_of_not_lt hlt
      · exact h.1 b hb

theorem sorted_sortByZ (m : String → Int) (l : List String) :
    (sortByZ m l).Pairwise (fun a b => m a ≤ m b) := by
  induction l with
  | nil => simp [sortByZ]
  | cons u us ih => exact sorted_insertZ ih

theorem getLastD_mem {l : List String} (h : l ≠ []) (d : String) :
    l.getLastD d ∈ l := by
  induction l with
  | nil => exact absurd rfl h
  | cons v vs ih =>
    cases vs with
    | nil => simp [List.getLastD]
    | cons w ws =>
      rw [List.getLastD_cons]
      exact List.mem_cons_of_mem v (ih (by simp) )

theorem sorted_le_getLastD {m : String → Int} {l : List String}
    (hs : l.Pairwise (fun a b => m a ≤ m b)) {x : String} (hx : x ∈ l) (d : String) :
    m x ≤ m (l.getLastD d) := by
  induction l with
  | nil => simp at hx
  | cons v vs ih =>
    rw [List.pairwise_cons] at hs
    cases vs with
    | nil =>
      simp at hx
      simp [List.getLastD, hx]
    | cons w ws =>
      rw [List.getLastD_cons]
      rcases List.mem_cons.mp hx with hx | hx
      · subst hx
        exact hs.1 _ (getLastD_mem (by simp) d)
      · exact ih hs.2 hx

theorem sorted_headD_le {m : String → Int} {l : List String}
    (hs : l.Pairwise (fun a b => m a ≤ m b)) {x : String} (hx : x ∈ l) (d : String) :
    m (l.headD d) ≤ m x := by
  cases l with
  | nil => simp at hx
  | cons v vs =>
    rw [List.pairwise_cons] at hs
    rcases List.mem_cons.mp hx with hx | hx
    · simp [hx]
    · exact hs.1 x hx

/- ### First-occurrence deduplication

Embeds `[...new Set(array)]` (main.ts startup), which keeps the first
occurrence of each element in order. -/

/-- First-occurrence dedup with an accumulator of already-seen elements. -/
def uniqueAux (seen : List String) : List String → List String
  | [] => []
  | x :: xs => if x ∈ seen then uniqueAux seen xs else x :: uniqueAux (x :: seen) xs

theorem mem_uniqueAux {a : String} {seen l : List String} :
    a ∈ uniqueAux seen l ↔ a ∈ l ∧ a ∉ seen := by
  induction l generalizing seen with
  | nil => simp [uniqueAux]
  | cons x xs ih =>
    rw [uniqueAux]
    by_cases hx : x ∈ seen
    · simp only [hx, if_true, ih, List.mem_cons]
      constructor
      · rintro ⟨h1, h2⟩
        exact ⟨Or.inr h1, h2⟩
      · rintro ⟨h1 | h1, h2⟩
        · exact absurd (h1 ▸ hx) h2
        · exact ⟨h1, h2⟩
    · simp only [hx, if_false, List.mem_cons, ih]
      constructor
      · rintro (h1 | ⟨h1, h2⟩)
        · exact ⟨Or.inl h1, h1 ▸ hx⟩
        · simp at h2
          exact ⟨Or.inr h1, h2.2⟩
      · rintro ⟨h1 | h1, h2⟩
        · exact Or.inl h1
        · by_cases hax : a = x
          · exact Or.inl hax
          · refine Or.inr ⟨h1, ?_⟩
            simp [hax, h2]

theorem nodup_uniqueAux (seen l : List String) : (uniqueAux seen l).Nodup := by
  induction l generalizing seen with
  | nil => simp [uniqueAux]
  | cons x xs ih =>
    rw [uniqueAux]
    by_cases hx : x ∈ seen
    · simp only [hx, if_true]
      exact ih seen
    · simp only [hx, if_false, List.nodup_cons]
      refine ⟨?_, ih (x :: seen)⟩
      intro hmem
      exact (mem_uniqueAux.mp hmem).2 (List.mem_cons_self x seen)

/- ### Property model (modules_common/cardprop.ts)

The prop classes are declared in modules_common/cardprop.ts, which is not
among the vendored sources; their fields are reconstructed from the spec
(section 3, Data Model) and from every use site in modules_main/card.ts
and main.ts.  Serializable wire forms carry the same plain data as the
props, so fromObject is the identity here and hydration is total. -/

structure Geometry where
  x : Int
  y : Int
  width : Int
  height : Int
  z : Int
deriving DecidableEq

structure CardStyle where
  backgroundColor : String
  /-- Opacity scaled to an integer percentage (the claims never compute on it). -/
  opacity100 : Int
  uiColor : String
deriving DecidableEq

structure CardCondition where
  locked : Bool
deriving DecidableEq

structure CardDate where
  createdDate : String
  modifiedDate : String
deriving DecidableEq

/-- One placement of a card: geometry, style, condition and timestamps. -/
structure TransformableFeature where
  geometry : Geometry
  style : CardStyle
  condition : CardCondition
  date : CardDate
deriving DecidableEq

/-- CardProp: one per document.  avatars maps a location key to the
placement feature stored under it (the keys of prop.avatars are location
prefixes; the full avatar url is location ++ id). -/
structure CardProp where
  id : String
  data : String
  avatars : List (String × TransformableFeature)
deriving DecidableEq

/-- AvatarProp: one per visible placement, denormalizing the parent data. -/
structure AvatarProp where
  url : String
  data : String
  geometry : Geometry
  style : CardStyle
  condition : CardCondition
  date : CardDate
deriving DecidableEq

/-- Modelled from the spec: an avatar url is the composite key
placement-prefix ++ card-id and decomposes deterministically; the
location prefix ends with a slash and the id holds none, so the id is
the suffix after the last slash (cardprop.ts getIdFromUrl is not in the
vendored sources). -/
def getIdFromUrl (u : String) : String :=
  String.mk ((u.data.reverse.takeWhile (fun c => c ≠ '/')).reverse)

/-- Modelled from the spec: the location prefix of an avatar url, i.e.
everything up to and including the last slash (cardprop.ts
getAvatarLocation is not in the vendored sources). -/
def getAvatarLocation (u : String) : String :=
  String.mk ((u.data.reverse.dropWhile (fun c => c ≠ '/')).reverse)

/-- Modelled from the spec: uuidv4 of the external uuid library, an
opaque generator of fresh non-empty identifiers, modelled as an
injective function of a seed (card.ts line 74 wraps it as
generateNewCardId). -/
def generateNewCardId (seed : Nat) : String :=
  String.mk ('c' :: (toString seed).data)

/-- Modelled from the spec: the default placement feature a prop
constructor falls back to when no serialized feature is available
(cardprop.ts defaults are not in the vendored sources; the exact default
numbers are irrelevant to every claim). -/
def defaultFeature : TransformableFeature :=
  { geometry := { x := 70, y := 70, width := 260, height := 176, z := 0 }
    style := { backgroundColor := "#ffffa0", opacity100 := 100, uiColor := "#ffffa0" }
    condition := { locked := false }
    date := { createdDate := "", modifiedDate := "" } }

/-- Modelled from the spec: the AvatarProp constructor
`new AvatarProp(url, data, feature)` accepts possibly-undefined data and
feature (card.ts line 100 passes getCardData/getAvatarProp results) and
falls back to defaults. -/
def mkAvatarProp (u : String) (d : Option String) (f : Option TransformableFeature) :
    AvatarProp :=
  let ft := f.getD defaultFeature
  { url := u, data := d.getD "", geometry := ft.geometry, style := ft.style
    condition := ft.condition, date := ft.date }

/-- Modelled from the spec: `new CardProp(id)` builds a default card,
freshly generated with empty content (spec section 3, Card lifecycle
state New) and one placement at the current workspace location (spec
section 6, startup creates one default card in the current workspace). -/
def defaultCardProp (id ws : String) : CardProp :=
  { id := id, data := "", avatars := [(ws, defaultFeature)] }

/- ### Persistence layer (modules_main/io.ts)

The CardIO implementation is not among the vendored sources; only its
interface (modules_common/types.ts, ICardIO) and the spec contract
(section 4.2) are.  It is modelled as a pure per-id record store plus a
per-workspace ordered list of avatar urls. -/

/-- Modelled from the spec: readCardData(id) returns the stored CardProp
or fails with NotFound. -/
def readCardData (store : List (String × CardProp)) (id : String) :
    Except String CardProp :=
  match lookupKey id store with
  | some p => Except.ok p
  | none => Except.error "NotFound"

/-- Modelled from the spec: updateOrCreateCardData(prop) upserts the
record under prop.id. -/
def updateOrCreateCardData (store : List (String × CardProp)) (prop : CardProp) :
    List (String × CardProp) :=
  setKey prop.id prop store

/-- Modelled from the spec: deleteCardData(id) removes the record and
fails with NotFound if it is absent. -/
def deleteCardData (store : List (String × CardProp)) (id : String) :
    Except String (List (String × CardProp)) :=
  match lookupKey id store with
  | some _ => Except.ok (eraseKey id store)
  | none => Except.error "NotFound"

/-- Modelled from the spec: addAvatarUrl appends a url to the ordered
set of placements recorded for the workspace. -/
def addAvatarUrl (wsStore : List String) (u : String) : List String :=
  wsStore ++ [u]

/-- Modelled from the spec: deleteAvatarUrl removes a url from the
recorded placements of the workspace. -/
def deleteAvatarUrl (wsStore : List String) (u : String) : List String :=
  wsStore.filter (fun v => v != u)

/-- Modelled from the spec: getAvatarUrlList returns the recorded
placements of the workspace. -/
def getAvatarUrlList (wsStore : List String) : List String :=
  wsStore

/- ### In-memory Avatar and the process state

An Avatar owns an AvatarProp, one native window and the focus-protocol
flags (card.ts class Avatar).  The window handle is represented by the
registry key; window destruction is observed through the
destroyedWindows log of the state. -/

structure AvatarState where
  prop : AvatarProp
  suppressFocusEventOnce : Bool
  suppressBlurEventOnce : Bool
  recaptureGlobalFocusEventAfterLocalFocusEvent : Bool
  renderingCompleted : Bool
deriving DecidableEq

/-- A freshly constructed Avatar: all flags start false (card.ts lines 340-344). -/
def newAvatarState (p : AvatarProp) : AvatarState :=
  { prop := p, suppressFocusEventOnce := false, suppressBlurEventOnce := false
    recaptureGlobalFocusEventAfterLocalFocusEvent := false, renderingCompleted := false }

/-- The main-process state: the two registries (card.ts lines 65-66), the
current workspace (workspace.ts collaborator), the persisted stores, the
global focus-listener permission (card.ts line 45) and observation logs
for destroyed windows, logged render failures, persistence reads and
focus() calls. -/
structure AppState where
  workspaceUrl : String
  cards : List (String × CardProp)
  avatars : List (String × AvatarState)
  wsAvatars : List String
  cardStore : List (String × CardProp)
  wsStore : List String
  globalFocusListenerPermission : Bool
  destroyedWindows : List String
  renderFailureLogs : List String
  readOps : List String
  focusRequests : List String
deriving DecidableEq

/- ### Card registry operations (modules_main/card.ts)

A Card registry entry owns exactly one CardProp (class Card); the
registry is embedded as an id-to-CardProp map, since a Card carries no
other state once constructed. -/

/-- card.ts line 68: look the parent card up by the id decomposed from the url. -/
def getCardFromUrl (s : AppState) (u : String) : Option CardProp :=
  lookupKey (getIdFromUrl u) s.cards

/-- card.ts line 78: optional chaining on the parent card's data. -/
def getCardData (s : AppState) (u : String) : Option String :=
  (getCardFromUrl s u).map (fun c => c.data)

/-- card.ts line 82 (getAvatarProp): the placement feature stored in the
parent card under the url's location key. -/
def getAvatarPropOf (s : AppState) (u : String) : Option TransformableFeature :=
  (getCardFromUrl s u).bind (fun c => lookupKey (getAvatarLocation u) c.avatars)

/-- card.ts line 202 (saveCard): persist via updateOrCreateCardData; an
IOFailure would be caught and logged, so saveCard never throws. -/
def saveCard (s : AppState) (cardProp : CardProp) : AppState :=
  { s with cardStore := updateOrCreateCardData s.cardStore cardProp }

/-- Whether the first character list is an initial segment of the second. -/
def charStarts : List Char → List Char → Bool
  | [], _ => true
  | _ :: _, [] => false
  | a :: as, b :: bs => (a = b) && charStarts as bs

/-- Whether the first character list occurs inside the second. -/
def charHas (pat : List Char) : List Char → Bool
  | [] => charStarts pat []
  | b :: bs => charStarts pat (b :: bs) || charHas pat bs

/-- JavaScript loc.match(workspaceUrl): the location string contains the
workspace url (the workspace url holds no regex metacharacters). -/
def strContains (s pat : String) : Bool :=
  charHas pat.data s.data

/-- card.ts line 300 (class Card, New with a CardProp argument): an empty
id is replaced by a freshly generated one before use. -/
def newCardProp (p : CardProp) (seed : Nat) : CardProp :=
  if p.id = "" then { p with id := generateNewCardId seed } else p

/-- card.ts lines 96-107: the avatar fan-out loop of createCard.  For
each location of the new card that matches the current workspace it
registers a new Avatar, records the url in the in-memory workspace and
in the persisted placement list, and starts a render whose failure is
collected (the await of Promise.all catches and logs it, card.ts
line 108). -/
def createCardLoop (cardId : String) (renderOk : String → Bool) :
    AppState → List (String × TransformableFeature) → AppState
  | s, [] => s
  | s, (loc, _) :: rest =>
    if strContains loc s.workspaceUrl then
      let avatarUrl := loc ++ cardId
      let s1 : AppState :=
        { s with
          avatars := setKey avatarUrl
            (newAvatarState (mkAvatarProp avatarUrl (getCardData s avatarUrl)
              (getAvatarPropOf s avatarUrl))) s.avatars
          wsAvatars := s.wsAvatars ++ [avatarUrl]
          wsStore := addAvatarUrl s.wsStore avatarUrl
          renderFailureLogs :=
            if renderOk avatarUrl then s.renderFailureLogs
            else s.renderFailureLogs ++ [avatarUrl] }
      createCardLoop cardId renderOk s1 rest
    else createCardLoop cardId renderOk s rest

/-- card.ts line 89: the state right after cards.set(card.prop.id, card). -/
def createCardMid (s : AppState) (prop : CardProp) : AppState :=
  { s with cards := setKey prop.id prop s.cards }

/-- card.ts lines 86-113 (createCard): hydrate the prop, construct the
new Card (regenerating an empty id), register it, fan out the avatars,
log render failures, persist the card with saveCard, and return the id.
renderOk gives the outcome of each avatar render. -/
def createCard (s : AppState) (propObject : CardProp) (seed : Nat)
    (renderOk : String → Bool) : AppState × String :=
  let prop := newCardProp propObject seed
  let s2 := createCardLoop prop.id renderOk (createCardMid s prop) prop.avatars
  (saveCard s2 prop, prop.id)

/-- card.ts lines 141-147: the avatar-destruction loop of deleteCard.  It
iterates the keys of card.prop.avatars (which are location prefixes) and
looks each key up in the avatars registry (which is keyed by full urls). -/
def destroyAvatarsLoop : AppState → List (String × TransformableFeature) → AppState
  | s, [] => s
  | s, (key, _) :: rest =>
    match lookupKey key s.avatars with
    | some _ =>
      destroyAvatarsLoop
        { s with avatars := eraseKey key s.avatars
                 destroyedWindows := s.destroyedWindows ++ [key] } rest
    | none => destroyAvatarsLoop s rest

/-- card.ts lines 132-163 (deleteCard): for an unregistered id it logs
and resolves; otherwise it runs the avatar-destruction loop, then
deletes the persisted record, removing the registry entry only on
success; a persistence failure is rethrown through the two catch
wrappers. -/
def deleteCard (s : AppState) (id : String) : AppState × Except String Unit :=
  match lookupKey id s.cards with
  | none => (s, Except.ok ())
  | some card =>
    let s1 := destroyAvatarsLoop s card.avatars
    match deleteCardData s1.cardStore id with
    | Except.error e =>
      (s1, Except.error ("Error in destroy window: Error in delete-card: " ++ e))
    | Except.ok store1 =>
      ({ s1 with cardStore := store1, cards := eraseKey id s1.cards }, Except.ok ())

/-- card.ts lines 116-129: the retry loop of deleteCardWithRetry with
the remaining iteration budget as fuel.  Each failed attempt is caught
and logged and followed by sleep(1000).  Returns the state, the value
the caller of deleteCardWithRetry observes, the number of attempts made
and the number of one-second sleeps performed. -/
def deleteCardWithRetryAux (id : String) :
    Nat → AppState → AppState × Except String Unit × Nat × Nat
  | 0, s => (s, Except.ok (), 0, 0)
  | n + 1, s =>
    match deleteCard s id with
    | (s1, Except.ok _) => (s1, Except.ok (), 1, 0)
    | (s1, Except.error _) =>
      let r := deleteCardWithRetryAux id n s1
      (r.1, Except.ok (), r.2.2.1 + 1, r.2.2.2 + 1)

/-- card.ts line 115 (deleteCardWithRetry): up to 5 attempts. -/
def deleteCardWithRetry (s : AppState) (id : String) :
    AppState × Except String Unit × Nat × Nat :=
  deleteCardWithRetryAux id 5 s

/-- card.ts lines 165-182 (deleteAvatar): if the url is registered,
deregister it, destroy its window, delete it from the persisted and the
in-memory workspace placement lists; then remove the location key from
the parent card's avatars and re-persist the parent. -/
def deleteAvatar (s : AppState) (u : String) : AppState :=
  let s1 :=
    match lookupKey u s.avatars with
    | some _ =>
      { s with avatars := eraseKey u s.avatars
               destroyedWindows := s.destroyedWindows ++ [u]
               wsStore := deleteAvatarUrl s.wsStore u
               wsAvatars := s.wsAvatars.filter (fun v => v != u) }
    | none => s
  match getCardFromUrl s1 u with
  | none => s1
  | some card =>
    let newProp : CardProp :=
      { card with avatars := eraseKey (getAvatarLocation u) card.avatars }
    saveCard { s1 with cards := setKey (getIdFromUrl u) newProp s1.cards } newProp

/-- card.ts lines 184-200 (updateAvatar): hydrate the AvatarProp, throw
if the parent card is unregistered, otherwise overwrite the parent's
data, replace the placement feature under the url's location key and
persist the parent. -/
def updateAvatar (s : AppState) (avatarPropObj : AvatarProp) :
    Except String AppState :=
  let prop := avatarPropObj
  match getCardFromUrl s prop.url with
  | none => Except.error ("The card is not registered in cards: " ++ prop.url)
  | some card =>
    let feature : TransformableFeature :=
      { geometry := prop.geometry, style := prop.style
        condition := prop.condition, date := prop.date }
    let newProp : CardProp :=
      { card with data := prop.data
                  avatars := setKey (getAvatarLocation prop.url) feature card.avatars }
    let s1 : AppState :=
      { s with cards := setKey (getIdFromUrl prop.url) newProp s.cards }
    Except.ok (saveCard s1 newProp)

/- ### Focus-suppression listeners (card.ts lines 589-617)

The listeners read and write the process-global permission and the
firing avatar's own flags; they are embedded as pure steps from
(permission, avatar) to (permission, avatar, emitted renderer events). -/

inductive CardEvent where
  | cardFocused
  | cardBlurred
deriving DecidableEq

/-- card.ts lines 590-606 (Avatar._focusListener). -/
def focusListenerStep (perm : Bool) (a : AvatarState) :
    Bool × AvatarState × List CardEvent :=
  let pa :=
    if a.recaptureGlobalFocusEventAfterLocalFocusEvent then
      (true, { a with recaptureGlobalFocusEventAfterLocalFocusEvent := false })
    else (perm, a)
  let perm1 := pa.1
  let a1 := pa.2
  if a1.suppressFocusEventOnce then
    (perm1, { a1 with suppressFocusEventOnce := false }, [])
  else if perm1 then (perm1, a1, [CardEvent.cardFocused])
  else (perm1, a1, [])

/-- card.ts lines 608-617 (Avatar._blurListener); it never reads the
global permission, which is passed through unchanged. -/
def blurListenerStep (perm : Bool) (a : AvatarState) :
    Bool × AvatarState × List CardEvent :=
  if a.suppressBlurEventOnce then
    (perm, { a with suppressBlurEventOnce := false }, [])
  else (perm, a, [CardEvent.cardBlurred])

/- ### Card constructor (card.ts lines 290-333) -/

inductive CardInitializeType where
  | New
  | Load
deriving DecidableEq

/-- The runtime type of the optional second constructor argument. -/
inductive CardCtorArg where
  | undef
  | propArg (p : CardProp)
  | strArg (s : String)

/-- What the constructor determines: a ready CardProp for New, or the id
that loadOrCreateCardData will read for Load. -/
inductive CardCtorResult where
  | newCard (p : CardProp)
  | loadCard (id : String)
deriving DecidableEq

/-- card.ts lines 298-332 (Card constructor): New with no argument makes
a default prop under a fresh id; New with a CardProp regenerates an
empty id; New with anything else is a TypeError; Load demands a string
id. -/
def cardConstruct (t : CardInitializeType) (arg : CardCtorArg) (seed : Nat)
    (ws : String) : Except String CardCtorResult :=
  match t with
  | CardInitializeType.New =>
    match arg with
    | CardCtorArg.undef =>
      Except.ok (CardCtorResult.newCard (defaultCardProp (generateNewCardId seed) ws))
    | CardCtorArg.propArg p => Except.ok (CardCtorResult.newCard (newCardProp p seed))
    | CardCtorArg.strArg _ =>
      Except.error "Second parameter must be CardProp when creating new card."
  | CardInitializeType.Load =>
    match arg with
    | CardCtorArg.strArg id => Except.ok (CardCtorResult.loadCard id)
    | _ => Except.error "Second parameter must be id string when loading the card."

/- ### Startup (main.ts, app.on ready) and z-order handlers -/

/-- The in-memory z of a registered avatar (the non-null assertion
avatars.get(k)!.prop.geometry.z in main.ts; 0 is never reached under the
membership facts used below). -/
def zOf (s : AppState) (u : String) : Int :=
  match lookupKey u s.avatars with
  | some a => a.prop.geometry.z
  | none => 0

/-- The persisted z of a recorded placement: the z stored in the card
record under the url's location, with the constructor default when the
feature is absent. -/
def storedZ (s : AppState) (u : String) : Int :=
  (((lookupKey (getIdFromUrl u) s.cardStore).bind
      (fun p => lookupKey (getAvatarLocation u) p.avatars)).getD defaultFeature).geometry.z

/-- main.ts lines 501-510: load each unique card id, recording the read
and registering the loaded prop under its own id; a failed read is
caught and logged, the other loaders proceed. -/
def loadCards : AppState → List String → AppState
  | s, [] => s
  | s, id :: rest =>
    let s1 : AppState := { s with readOps := s.readOps ++ [id] }
    let s2 : AppState :=
      match readCardData s1.cardStore id with
      | Except.ok p => { s1 with cards := setKey p.id p s1.cards }
      | Except.error _ => s1
    loadCards s2 rest

/-- main.ts lines 516-523: one Avatar per recorded url, built from the
denormalized card data and placement feature. -/
def materializeAvatars : AppState → List String → AppState
  | s, [] => s
  | s, u :: rest =>
    let av := newAvatarState (mkAvatarProp u (getCardData s u) (getAvatarPropOf s u))
    materializeAvatars { s with avatars := setKey u av s.avatars } rest

/-- main.ts lines 477-496: the empty-workspace branch of the ready
handler: build one default card under a fresh id, record each of its
placements in the in-memory workspace and in the persisted placement
list, register the card, persist it, and hand the placement urls on as
the array to materialize. -/
def appReadyEmptyBranch (s0 : AppState) (seed : Nat) : AppState × List String :=
  let p0 := defaultCardProp (generateNewCardId seed) s0.workspaceUrl
  let urls := p0.avatars.map (fun lf => lf.1 ++ p0.id)
  let sA := urls.foldl
    (fun st u =>
      { st with wsAvatars := st.wsAvatars ++ [u]
                wsStore := addAvatarUrl st.wsStore u }) s0
  let sB : AppState := { sA with cards := setKey p0.id p0 sA.cards }
  let sC : AppState := { sB with cardStore := updateOrCreateCardData sB.cardStore p0 }
  (sC, urls)

/-- main.ts lines 497-511: the non-empty branch: load each unique
underlying card id once and keep the recorded urls. -/
def appReadyLoadBranch (s0 : AppState) (avatarIdArray : List String) :
    AppState × List String :=
  let uniqueCardIds := uniqueAux [] (avatarIdArray.map getIdFromUrl)
  (loadCards s0 uniqueCardIds, avatarIdArray)

/-- main.ts lines 516-549: the shared tail of the ready handler:
materialize one avatar per url, sort the registry keys ascending by z
and moveTop each registered window in that order (the moveTop calls are
returned as an ordered list). -/
def appReadyFinish (branch : AppState × List String) : AppState × List String :=
  let s2 := materializeAvatars branch.1 branch.2
  let backToFront := sortByZ (zOf s2) (keysOf s2.avatars)
  let moveTops := backToFront.filter (fun k => (lookupKey k s2.avatars).isSome)
  (s2, moveTops)

/-- main.ts lines 454-555 (app.on ready): enumerate the recorded avatar
urls of the current workspace; when none exist create, register and
persist one default card; otherwise load each unique card id once; then
materialize one avatar per recorded url and raise the windows in
ascending z order.  Returns the final state and the ordered moveTop
calls. -/
def appReady (s0 : AppState) (seed : Nat) : AppState × List String :=
  let avatarIdArray := getAvatarUrlList s0.wsStore
  appReadyFinish
    (if avatarIdArray.isEmpty then appReadyEmptyBranch s0 seed
     else appReadyLoadBranch s0 avatarIdArray)

/-- main.ts line 732 (and 761): suppress the next focus event of the
avatar under the key and call window.focus() on it. -/
def suppressAndFocus (s : AppState) (k : String) : AppState :=
  match lookupKey k s.avatars with
  | some a =>
    { s with avatars := setKey k { a with suppressFocusEventOnce := true } s.avatars
             focusRequests := s.focusRequests ++ [k] }
  | none => s

/-- main.ts lines 709-738 (ipcMain bring-to-front): for an unregistered
url return nothing; otherwise sort the registry keys ascending by z,
take one plus the z of the last (frontmost) key as the new z, move the
url to the end and, when rearrange is set, refocus every window in that
order with its focus event suppressed. -/
def bringToFront (s : AppState) (u : String) (rearrange : Bool) :
    AppState × Option Int :=
  match lookupKey u s.avatars with
  | none => (s, none)
  | some _ =>
    let backToFront := sortByZ (zOf s) (keysOf s.avatars)
    let newZ := zOf s (backToFront.getLastD "") + 1
    let reordered := backToFront.erase u ++ [u]
    let s1 := if rearrange then reordered.foldl suppressAndFocus s else s
    (s1, some newZ)

/-- main.ts lines 740-765 (ipcMain send-to-back): symmetric to
bring-to-front with one less than the z of the first (backmost) key, the
url moved to the front, and an unconditional refocus pass. -/
def sendToBack (s : AppState) (u : String) : AppState × Option Int :=
  match lookupKey u s.avatars with
  | none => (s, none)
  | some _ =>
    let backToFront := sortByZ (zOf s) (keysOf s.avatars)
    let newZ := zOf s (backToFront.headD "") - 1
    let reordered := u :: backToFront.erase u
    let s1 := reordered.foldl suppressAndFocus s
    (s1, some newZ)

/- ### Invariants of the loops -/

theorem createCardLoop_cards (cardId : String) (renderOk : String → Bool)
    (s : AppState) (l : List (String × TransformableFeature)) :
    (createCardLoop cardId renderOk s l).cards = s.cards := by
  induction l generalizing s with
  | nil => rfl
  | cons hd tl ih =>
    obtain ⟨loc, f⟩ := hd
    rw [createCardLoop]
    by_cases h : strContains loc s.workspaceUrl = true
    · rw [if_pos h]; exact ih _
    · rw [if_neg h]; exact ih _

theorem createCardLoop_cardStore (cardId : String) (renderOk : String → Bool)
    (s : AppState) (l : List (String × TransformableFeature)) :
    (createCardLoop cardId renderOk s l).cardStore = s.cardStore := by
  induction l generalizing s with
  | nil => rfl
  | cons hd tl ih =>
    obtain ⟨loc, f⟩ := hd
    rw [createCardLoop]
    by_cases h : strContains loc s.workspaceUrl = true
    · rw [if_pos h]; exact ih _
    · rw [if_neg h]; exact ih _

theorem createCardLoop_workspaceUrl (cardId : String) (renderOk : String → Bool)
    (s : AppState) (l : List (String × TransformableFeature)) :
    (createCardLoop cardId renderOk s l).workspaceUrl = s.workspaceUrl := by
  induction l generalizing s with
  | nil => rfl
  | cons hd tl ih =>
    obtain ⟨loc, f⟩ := hd
    rw [createCardLoop]
    by_cases h : strContains loc s.workspaceUrl = true
    · rw [if_pos h]; exact ih _
    · rw [if_neg h]; exact ih _

theorem createCardLoop_logs_mono (cardId : String) (renderOk : String → Bool)
    (s : AppState) (l : List (String × TransformableFeature)) {x : String}
    (hx : x ∈ s.renderFailureLogs) :
    x ∈ (createCardLoop cardId renderOk s l).renderFailureLogs := by
  induction l generalizing s with
  | nil => exact hx
  | cons hd tl ih =>
    obtain ⟨loc, f⟩ := hd
    rw [createCardLoop]
    by_cases h : strContains loc s.workspaceUrl = true
    · rw [if_pos h]
      refine ih _ ?_
      by_cases hr : renderOk (loc ++ cardId) = true
      · simpa [hr] using hx
      · simp only [eq_false_of_ne_true hr, if_false]
        exact List.mem_append_left _ hx
    · rw [if_neg h]
      exact ih _ hx

theorem createCardLoop_logs_mem (cardId : String) (renderOk : String → Bool)
    (s : AppState) (l : List (String × TransformableFeature))
    {loc : String} {f : TransformableFeature} (hmem : (loc, f) ∈ l)
    (hmatch : strContains loc s.workspaceUrl = true)
    (hfail : renderOk (loc ++ cardId) = false) :
    (loc ++ cardId) ∈ (createCardLoop cardId renderOk s l).renderFailureLogs := by
  induction l generalizing s with
  | nil => simp at hmem
  | cons hd tl ih =>
    obtain ⟨loc1, f1⟩ := hd
    rw [createCardLoop]
    rcases List.mem_cons.mp hmem with heq | hmem1
    · obtain ⟨h1, h2⟩ := Prod.mk.injEq .. ▸ heq
      subst h1
      rw [if_pos hmatch]
      refine createCardLoop_logs_mono cardId renderOk _ tl ?_
      simp [hfail]
    · by_cases h : strContains loc1 s.workspaceUrl = true
      · rw [if_pos h]
        exact ih _ hmem1 hmatch
      · rw [if_neg h]
        exact ih _ hmem1 hmatch

theorem destroyAvatarsLoop_cards (s : AppState)
    (l : List (String × TransformableFeature)) :
    (destroyAvatarsLoop s l).cards = s.cards := by
  induction l generalizing s with
  | nil => rfl
  | cons hd tl ih =>
    obtain ⟨key, f⟩ := hd
    rw [destroyAvatarsLoop]
    cases lookupKey key s.avatars with
    | some a => exact ih _
    | none => exact ih _

theorem destroyAvatarsLoop_cardStore (s : AppState)
    (l : List (String × TransformableFeature)) :
    (destroyAvatarsLoop s l).cardStore = s.cardStore := by
  induction l generalizing s with
  | nil => rfl
  | cons hd tl ih =>
    obtain ⟨key, f⟩ := hd
    rw [destroyAvatarsLoop]
    cases lookupKey key s.avatars with
    | some a => exact ih _
    | none => exact ih _

/-- A deleteCard attempt on a registered card whose persisted record is
missing fails and leaves the registry entry and the store untouched. -/
theorem deleteCard_fail {s : AppState} {id : String} {card : CardProp}
    (h1 : lookupKey id s.cards = some card)
    (h2 : lookupKey id s.cardStore = none) :
    deleteCard s id =
      (destroyAvatarsLoop s card.avatars,
       Except.error "Error in destroy window: Error in delete-card: NotFound")
    ∧ (deleteCard s id).1.cards = s.cards
    ∧ (deleteCard s id).1.cardStore = s.cardStore := by
  have hstore : (destroyAvatarsLoop s card.avatars).cardStore = s.cardStore :=
    destroyAvatarsLoop_cardStore s card.avatars
  have hmain : deleteCard s id =
      (destroyAvatarsLoop s card.avatars,
       Except.error "Error in destroy window: Error in delete-card: NotFound") := by
    rw [deleteCard, h1]
    simp only [deleteCardData, hstore, h2]
    rfl
  refine ⟨hmain, ?_, ?_⟩
  · rw [hmain]
    exact destroyAvatarsLoop_cards s card.avatars
  · rw [hmain]
    exact hstore

/-- When every attempt fails, the retry loop uses its whole budget,
sleeps after every attempt, and resolves without an error. -/
theorem deleteCardWithRetryAux_all_fail (id : String) (n : Nat) :
    ∀ s : AppState, ∀ card : CardProp,
      lookupKey id s.cards = some card → lookupKey id s.cardStore = none →
      (deleteCardWithRetryAux id n s).2.1 = Except.ok ()
      ∧ (deleteCardWithRetryAux id n s).2.2.1 = n
      ∧ (deleteCardWithRetryAux id n s).2.2.2 = n := by
  induction n with
  | zero => intro s card h1 h2; exact ⟨rfl, rfl, rfl⟩
  | succ n ih =>
    intro s card h1 h2
    obtain ⟨heq, hc, hst⟩ := deleteCard_fail h1 h2
    have hc1 : lookupKey id (deleteCard s id).1.cards = some card := by rw [hc]; exact h1
    have hst1 : lookupKey id (deleteCard s id).1.cardStore = none := by rw [hst]; exact h2
    rw [heq] at hc1 hst1
    obtain ⟨r1, r2, r3⟩ := ih (destroyAvatarsLoop s card.avatars) card hc1 hst1
    rw [deleteCardWithRetryAux, heq]
    exact ⟨rfl, by simpa using r2, by simpa using r3⟩

theorem loadCards_avatars (s : AppState) (ids : List String) :
    (loadCards s ids).avatars = s.avatars := by
  induction ids generalizing s with
  | nil => rfl
  | cons id rest ih =>
    rw [loadCards]
    cases readCardData s.cardStore id with
    | ok p => exact ih _
    | error e => exact ih _

theorem loadCards_cardStore (s : AppState) (ids : List String) :
    (loadCards s ids).cardStore = s.cardStore := by
  induction ids generalizing s with
  | nil => rfl
  | cons id rest ih =>
    rw [loadCards]
    cases readCardData s.cardStore id with
    | ok p => exact ih _
    | error e => exact ih _

theorem loadCards_readOps (s : AppState) (ids : List String) :
    (loadCards s ids).readOps = s.readOps ++ ids := by
  induction ids generalizing s with
  | nil => simp [loadCards]
  | cons id rest ih =>
    rw [loadCards]
    cases readCardData s.cardStore id with
    | ok p => rw [ih]; simp
    | error e => rw [ih]; simp

theorem loadCards_lookup_not_mem {s : AppState} {ids : List String} {id : String}
    (hid : ∀ j p, lookupKey j s.cardStore = some p → p.id = j)
    (h : id ∉ ids) :
    lookupKey id (loadCards s ids).cards = lookupKey id s.cards := by
  induction ids generalizing s with
  | nil => rfl
  | cons j rest ih =>
    have hne : id ≠ j := fun he => h (he ▸ List.mem_cons_self j rest)
    have hrest : id ∉ rest := fun hm => h (List.mem_cons_of_mem j hm)
    rw [loadCards]
    cases hread : readCardData s.cardStore j with
    | ok p =>
      have hpj : p.id = j := by
        rw [readCardData] at hread
        cases hl : lookupKey j s.cardStore with
        | some q => rw [hl] at hread; cases hread; exact hid j p hl
        | none => rw [hl] at hread; cases hread
      rw [ih (by simpa using hid) hrest]
      simp only []
      rw [lookupKey_setKey_ne _ _ (hpj ▸ hne)]
    | error e =>
      rw [ih (by simpa using hid) hrest]

theorem loadCards_lookup_mem {s : AppState} {ids : List String} {id : String}
    {p : CardProp}
    (hid : ∀ j q, lookupKey j s.cardStore = some q → q.id = j)
    (h : id ∈ ids) (hp : lookupKey id s.cardStore = some p) :
    lookupKey id (loadCards s ids).cards = some p := by
  induction ids generalizing s with
  | nil => simp at h
  | cons j rest ih =>
    rw [loadCards]
    by_cases hej : id = j
    · subst hej
      rw [readCardData, hp]
      simp only []
      have hpid : p.id = id := hid id p hp
      by_cases hmem : id ∈ rest
      · exact ih (by simpa using hid) hmem (by simpa using hp)
      · rw [loadCards_lookup_not_mem (by simpa using hid) hmem]
        simp only [hpid]
        exact lookupKey_setKey_self ..
    · have hmem : id ∈ rest := by
        rcases List.mem_cons.mp h with he | hm
        · exact absurd he hej
        · exact hm
      cases hread : readCardData s.cardStore j with
      | ok q =>
        exact ih (by simpa using hid) hmem (by simpa using hp)
      | error e =>
        exact ih (by simpa using hid) hmem (by simpa using hp)

theorem materializeAvatars_cards (s : AppState) (urls : List String) :
    (materializeAvatars s urls).cards = s.cards := by
  induction urls generalizing s with
  | nil => rfl
  | cons u rest ih => rw [materializeAvatars]; exact ih _

theorem materializeAvatars_cardStore (s : AppState) (urls : List String) :
    (materializeAvatars s urls).cardStore = s.cardStore := by
  induction urls generalizing s with
  | nil => rfl
  | cons u rest ih => rw [materializeAvatars]; exact ih _

theorem materializeAvatars_readOps (s : AppState) (urls : List String) :
    (materializeAvatars s urls).readOps = s.readOps := by
  induction urls generalizing s with
  | nil => rfl
  | cons u rest ih => rw [materializeAvatars]; exact ih _

theorem materializeAvatars_lookup_not_mem {s : AppState} {urls : List String}
    {u : String} (h : u ∉ urls) :
    lookupKey u (materializeAvatars s urls).avatars = lookupKey u s.avatars := by
  induction urls generalizing s with
  | nil => rfl
  | cons v rest ih =>
    have hne : u ≠ v := fun he => h (he ▸ List.mem_cons_self v rest)
    have hrest : u ∉ rest := fun hm => h (List.mem_cons_of_mem v hm)
    rw [materializeAvatars, ih hrest]
    exact lookupKey_setKey_ne _ _ hne

theorem materializeAvatars_lookup_mem {s : AppState} {urls : List String}
    {u : String} (hnd : urls.Nodup) (h : u ∈ urls) :
    lookupKey u (materializeAvatars s urls).avatars =
      some (newAvatarState (mkAvatarProp u (getCardData s u) (getAvatarPropOf s u))) := by
  induction urls generalizing s with
  | nil => simp at h
  | cons v rest ih =>
    rw [List.nodup_cons] at hnd
    rw [materializeAvatars]
    by_cases hev : u = v
    · subst hev
      rw [materializeAvatars_lookup_not_mem hnd.1]
      exact lookupKey_setKey_self ..
    · have hmem : u ∈ rest := by
        rcases List.mem_cons.mp h with he | hm
        · exact absurd he hev
        · exact hm
      exact ih hnd.2 hmem

theorem materializeAvatars_keysOf {s : AppState} {urls : List String}
    (hnd : urls.Nodup) (hfresh : ∀ u ∈ urls, lookupKey u s.avatars = none) :
    keysOf (materializeAvatars s urls).avatars = keysOf s.avatars ++ urls := by
  induction urls generalizing s with
  | nil => simp [materializeAvatars]
  | cons v rest ih =>
    rw [List.nodup_cons] at hnd
    rw [materializeAvatars]
    have hfreshv : lookupKey v s.avatars = none := hfresh v (List.mem_cons_self v rest)
    have hfresh1 : ∀ u ∈ rest,
        lookupKey u (setKey v
          (newAvatarState (mkAvatarProp v (getCardData s v) (getAvatarPropOf s v)))
          s.avatars) = none := by
      intro u hu
      have hne : u ≠ v := fun he => hnd.1 (he ▸ hu)
      rw [lookupKey_setKey_ne _ _ hne]
      exact hfresh u (List.mem_cons_of_mem v hu)
    rw [ih hnd.2 hfresh1]
    simp only []
    rw [keysOf_setKey_new _ hfreshv]
    simp

theorem isEmpty_false_of_ne_nil {l : List String} (h : l ≠ []) :
    l.isEmpty = false := by
  cases l with
  | nil => exact absurd rfl h
  | cons a t => rfl

theorem filter_eq_self_of_all {p : String → Bool} {l : List String}
    (h : ∀ a ∈ l, p a = true) : l.filter p = l := by
  induction l with
  | nil => rfl
  | cons a t ih =>
    have ha := h a (List.mem_cons_self a t)
    rw [List.filter_cons, ha]
    simp [ih (fun b hb => h b (List.mem_cons_of_mem a hb))]

/- ### Concrete fixtures used for evaluations and witnesses -/

/-- A placement feature with a chosen z. -/
def featZ (z : Int) : TransformableFeature :=
  { defaultFeature with geometry := { defaultFeature.geometry with z := z } }

def prop1 : CardProp :=
  { id := "id1", data := "hello", avatars := [("ws1/", defaultFeature)] }

def avatar1 : AvatarState :=
  newAvatarState (mkAvatarProp "ws1/id1" (some "hello") (some defaultFeature))

/-- A fresh launch state of the main process in workspace ws1/. -/
def baseState : AppState :=
  { workspaceUrl := "ws1/", cards := [], avatars := [], wsAvatars := []
    cardStore := [], wsStore := [], globalFocusListenerPermission := true
    destroyedWindows := [], renderFailureLogs := [], readOps := [], focusRequests := [] }

/-- A state holding one card with one registered avatar, consistent with
its persisted record. -/
def stateC1 : AppState :=
  { baseState with cards := [("id1", prop1)], avatars := [("ws1/id1", avatar1)]
                   wsAvatars := ["ws1/id1"], cardStore := [("id1", prop1)]
                   wsStore := ["ws1/id1"] }

/-- A state holding one registered card whose persisted record is missing,
so every persistence delete fails with NotFound. -/
def stateC2 : AppState :=
  { baseState with cards := [("id1", prop1)] }

/- ### Claim theorems -/

/-- C1 (code bug evaluation): deleteCard on a registered card with a
registered avatar removes the card from the registry and deletes its
persisted record, so a subsequent readCardData fails with NotFound; but
because the destruction loop looks the location keys of
card.prop.avatars up in the url-keyed avatars registry, the avatar stays
registered and no window is destroyed, contrary to the claim. -/
theorem C1_deleteCard_leaves_avatar_registered :
    (deleteCard stateC1 "id1").2 = Except.ok ()
    ∧ lookupKey "id1" (deleteCard stateC1 "id1").1.cards = none
    ∧ readCardData (deleteCard stateC1 "id1").1.cardStore "id1" = Except.error "NotFound"
    ∧ lookupKey "ws1/id1" (deleteCard stateC1 "id1").1.avatars = some avatar1
    ∧ (deleteCard stateC1 "id1").1.destroyedWindows = [] :=
  ⟨rfl, rfl, rfl, rfl, rfl⟩

/-- C2 (counterexample): on a state where every persistence delete fails,
deleteCardWithRetry makes its five attempts, the condition still fails
afterwards, and yet the caller observes a successful resolution: the
error is swallowed, not surfaced. -/
theorem C2_retry_swallows_error_cex :
    (deleteCard stateC2 "id1").2
      = Except.error "Error in destroy window: Error in delete-card: NotFound"
    ∧ (deleteCardWithRetry stateC2 "id1").2.2.1 = 5
    ∧ (deleteCard (deleteCardWithRetry stateC2 "id1").1 "id1").2
      = Except.error "Error in destroy window: Error in delete-card: NotFound"
    ∧ (deleteCardWithRetry stateC2 "id1").2.1 = Except.ok () :=
  ⟨rfl, rfl, rfl, rfl⟩

/-- C2 (amended): when the persistence delete of a registered card keeps
failing, the delete is retried up to 5 times, with a fixed one-second
sleep after each failed attempt, and when every attempt fails the error
is logged and swallowed: deleteCardWithRetry resolves without surfacing
an error to the caller. -/
theorem C2_deleteCardWithRetry_amended (s : AppState) (id : String) (card : CardProp)
    (h1 : lookupKey id s.cards = some card)
    (h2 : lookupKey id s.cardStore = none) :
    (deleteCardWithRetry s id).2.1 = Except.ok ()
    ∧ (deleteCardWithRetry s id).2.2.1 = 5
    ∧ (deleteCardWithRetry s id).2.2.2 = 5 :=
  deleteCardWithRetryAux_all_fail id 5 s card h1 h2

/-- Witness for the amended C2 theorem at a concrete state. -/
theorem C2_deleteCardWithRetry_amended_witness :
    lookupKey "id1" stateC2.cards = some prop1
    ∧ lookupKey "id1" stateC2.cardStore = none
    ∧ ((deleteCardWithRetry stateC2 "id1").2.1 = Except.ok ()
       ∧ (deleteCardWithRetry stateC2 "id1").2.2.1 = 5
       ∧ (deleteCardWithRetry stateC2 "id1").2.2.2 = 5) :=
  ⟨rfl, rfl, C2_deleteCardWithRetry_amended stateC2 "id1" prop1 rfl rfl⟩

/-- C3: with both suppression flags set, one firing of each listener
consumes its flags (suppressFocusEventOnce, suppressBlurEventOnce and
recaptureGlobalFocusEventAfterLocalFocusEvent are all false afterwards)
and emits nothing, and the immediately following second event is handled
normally: the second blur always emits card-blurred and the second focus
emits card-focused exactly when the global permission left behind by the
first firing allows it. -/
theorem C3_once_flags_consumed (perm : Bool) (a : AvatarState)
    (hf : a.suppressFocusEventOnce = true)
    (hb : a.suppressBlurEventOnce = true) :
    (focusListenerStep perm a).2.1.suppressFocusEventOnce = false
    ∧ (focusListenerStep perm a).2.1.recaptureGlobalFocusEventAfterLocalFocusEvent = false
    ∧ (blurListenerStep perm a).2.1.suppressBlurEventOnce = false
    ∧ (focusListenerStep perm a).2.2 = []
    ∧ (blurListenerStep perm a).2.2 = []
    ∧ (focusListenerStep (focusListenerStep perm a).1 (focusListenerStep perm a).2.1).2.2
        = (if (focusListenerStep perm a).1 then [CardEvent.cardFocused] else [])
    ∧ (blurListenerStep (blurListenerStep perm a).1 (blurListenerStep perm a).2.1).2.2
        = [CardEvent.cardBlurred] := by
  cases hr : a.recaptureGlobalFocusEventAfterLocalFocusEvent <;> cases perm <;>
    simp [focusListenerStep, blurListenerStep, hf, hb, hr]

/-- An avatar with every once-flag set, as after
blur-and-focus-with-suppress-events. -/
def avatarFlags1 : AvatarState :=
  { avatar1 with suppressFocusEventOnce := true, suppressBlurEventOnce := true
                 recaptureGlobalFocusEventAfterLocalFocusEvent := true }

/-- Witness for C3 at a concrete avatar with the global gate disabled. -/
theorem C3_once_flags_consumed_witness :
    avatarFlags1.suppressFocusEventOnce = true
    ∧ avatarFlags1.suppressBlurEventOnce = true
    ∧ ((focusListenerStep false avatarFlags1).2.1.suppressFocusEventOnce = false
      ∧ (focusListenerStep false avatarFlags1).2.1.recaptureGlobalFocusEventAfterLocalFocusEvent
          = false
      ∧ (blurListenerStep false avatarFlags1).2.1.suppressBlurEventOnce = false
      ∧ (focusListenerStep false avatarFlags1).2.2 = []
      ∧ (blurListenerStep false avatarFlags1).2.2 = []
      ∧ (focusListenerStep (focusListenerStep false avatarFlags1).1
            (focusListenerStep false avatarFlags1).2.1).2.2
          = (if (focusListenerStep false avatarFlags1).1
             then [CardEvent.cardFocused] else [])
      ∧ (blurListenerStep (blurListenerStep false avatarFlags1).1
            (blurListenerStep false avatarFlags1).2.1).2.2
          = [CardEvent.cardBlurred]) :=
  ⟨rfl, rfl, C3_once_flags_consumed false avatarFlags1 rfl rfl⟩

/-- The parent CardProp as updateAvatar rewrites it: data overwritten by
the avatar's data, the placement feature replaced under the url's
location key. -/
def replacedCardProp (card : CardProp) (p : AvatarProp) : CardProp :=
  { card with data := p.data
              avatars := setKey (getAvatarLocation p.url)
                { geometry := p.geometry, style := p.style
                  condition := p.condition, date := p.date } card.avatars }

/-- C4: updateAvatar fails when no card with the url's id is registered;
otherwise it overwrites the parent card's data with the avatar's data,
replaces exactly the placement feature under the url's location key
(every other location is untouched), persists the parent card, and
leaves every other card unchanged. -/
theorem C4_updateAvatar_notfound_or_updates (s : AppState) (p : AvatarProp)
    (card : CardProp) :
    (lookupKey (getIdFromUrl p.url) s.cards = none →
      updateAvatar s p
        = Except.error ("The card is not registered in cards: " ++ p.url))
    ∧ (lookupKey (getIdFromUrl p.url) s.cards = some card →
        ∃ s1, updateAvatar s p = Except.ok s1
          ∧ ∃ np, lookupKey (getIdFromUrl p.url) s1.cards = some np
            ∧ np.id = card.id
            ∧ np.data = p.data
            ∧ lookupKey (getAvatarLocation p.url) np.avatars
                = some { geometry := p.geometry, style := p.style
                         condition := p.condition, date := p.date }
            ∧ (∀ loc, loc ≠ getAvatarLocation p.url →
                lookupKey loc np.avatars = lookupKey loc card.avatars)
            ∧ lookupKey np.id s1.cardStore = some np
            ∧ (∀ j, j ≠ getIdFromUrl p.url →
                lookupKey j s1.cards = lookupKey j s.cards)) := by
  constructor
  · intro h
    simp only [updateAvatar, getCardFromUrl, h]
  · intro h
    have hupd : updateAvatar s p
        = Except.ok (saveCard
            { s with cards := setKey (getIdFromUrl p.url) (replacedCardProp card p) s.cards }
            (replacedCardProp card p)) := by
      simp only [updateAvatar, getCardFromUrl, h]
      rfl
    refine ⟨_, hupd, replacedCardProp card p, ?_, rfl, rfl, ?_, ?_, ?_, ?_⟩
    · show lookupKey (getIdFromUrl p.url)
        (setKey (getIdFromUrl p.url) (replacedCardProp card p) s.cards)
        = some (replacedCardProp card p)
      exact lookupKey_setKey_self ..
    · show lookupKey (getAvatarLocation p.url)
        (setKey (getAvatarLocation p.url) _ card.avatars) = _
      exact lookupKey_setKey_self ..
    · intro loc hloc
      show lookupKey loc (setKey (getAvatarLocation p.url) _ card.avatars)
        = lookupKey loc card.avatars
      exact lookupKey_setKey_ne _ _ hloc
    · show lookupKey (replacedCardProp card p).id
        (setKey (replacedCardProp card p).id (replacedCardProp card p) s.cardStore)
        = some (replacedCardProp card p)
      exact lookupKey_setKey_self ..
    · intro j hj
      show lookupKey j (setKey (getIdFromUrl p.url) (replacedCardProp card p) s.cards)
        = lookupKey j s.cards
      exact lookupKey_setKey_ne _ _ hj

/-- The avatar payload used in the C4 witness. -/
def avatarPropC4 : AvatarProp :=
  { url := "ws1/id1", data := "edited", geometry := (featZ 9).geometry
    style := defaultFeature.style, condition := defaultFeature.condition
    date := defaultFeature.date }

/-- Witness for C4 at a concrete registered card. -/
theorem C4_updateAvatar_witness :
    lookupKey (getIdFromUrl avatarPropC4.url) stateC1.cards = some prop1
    ∧ (∃ s1, updateAvatar stateC1 avatarPropC4 = Except.ok s1
        ∧ ∃ np, lookupKey (getIdFromUrl avatarPropC4.url) s1.cards = some np
          ∧ np.id = prop1.id
          ∧ np.data = avatarPropC4.data
          ∧ lookupKey (getAvatarLocation avatarPropC4.url) np.avatars
              = some { geometry := avatarPropC4.geometry, style := avatarPropC4.style
                       condition := avatarPropC4.condition, date := avatarPropC4.date }
          ∧ (∀ loc, loc ≠ getAvatarLocation avatarPropC4.url →
              lookupKey loc np.avatars = lookupKey loc prop1.avatars)
          ∧ lookupKey np.id s1.cardStore = some np
          ∧ (∀ j, j ≠ getIdFromUrl avatarPropC4.url →
              lookupKey j s1.cards = lookupKey j stateC1.cards)) :=
  ⟨rfl, (C4_updateAvatar_notfound_or_updates stateC1 avatarPropC4 prop1).2 rfl⟩

/-- C5: createCard returns the id of the hydrated (possibly regenerated)
CardProp, and regardless of how the avatar renders turn out the card is
registered under that id and persisted with its full content; every
matched placement whose render fails is logged. -/
theorem C5_createCard_best_effort (s : AppState) (propObject : CardProp)
    (seed : Nat) (renderOk : String → Bool) :
    ((createCard s propObject seed renderOk).2
       = (if propObject.id = "" then generateNewCardId seed else propObject.id))
    ∧ (∃ fp, lookupKey (createCard s propObject seed renderOk).2
          (createCard s propObject seed renderOk).1.cards = some fp
        ∧ lookupKey (createCard s propObject seed renderOk).2
            (createCard s propObject seed renderOk).1.cardStore = some fp
        ∧ fp.data = propObject.data
        ∧ fp.avatars = propObject.avatars)
    ∧ (∀ loc f, (loc, f) ∈ propObject.avatars →
        strContains loc s.workspaceUrl = true →
        renderOk (loc ++ (createCard s propObject seed renderOk).2) = false →
        (loc ++ (createCard s propObject seed renderOk).2)
          ∈ (createCard s propObject seed renderOk).1.renderFailureLogs) := by
  have hret : (createCard s propObject seed renderOk).2 = (newCardProp propObject seed).id :=
    rfl
  have hcards : (createCard s propObject seed renderOk).1.cards
      = setKey (newCardProp propObject seed).id (newCardProp propObject seed) s.cards := by
    show (createCardLoop (newCardProp propObject seed).id renderOk _ _).cards = _
    rw [createCardLoop_cards]
    rfl
  have hstore : (createCard s propObject seed renderOk).1.cardStore
      = setKey (newCardProp propObject seed).id (newCardProp propObject seed) s.cardStore := by
    show setKey (newCardProp propObject seed).id (newCardProp propObject seed)
        (createCardLoop (newCardProp propObject seed).id renderOk
          (createCardMid s (newCardProp propObject seed))
          (newCardProp propObject seed).avatars).cardStore = _
    rw [createCardLoop_cardStore]
    rfl
  have hnpa : (newCardProp propObject seed).avatars = propObject.avatars := by
    rw [newCardProp]
    by_cases h : propObject.id = "" <;> simp [h]
  have hlogs : (createCard s propObject seed renderOk).1.renderFailureLogs
      = (createCardLoop (newCardProp propObject seed).id renderOk
          (createCardMid s (newCardProp propObject seed))
          (newCardProp propObject seed).avatars).renderFailureLogs := rfl
  refine ⟨?_, ⟨newCardProp propObject seed, ?_, ?_, ?_, hnpa⟩, ?_⟩
  · rw [hret, newCardProp]
    by_cases h : propObject.id = "" <;> simp [h]
  · rw [hret, hcards]
    exact lookupKey_setKey_self ..
  · rw [hret, hstore]
    exact lookupKey_setKey_self ..
  · rw [newCardProp]
    by_cases h : propObject.id = "" <;> simp [h]
  · intro loc f hmem hmatch hfail
    rw [hret] at hfail ⊢
    rw [hlogs]
    exact createCardLoop_logs_mem _ renderOk _ _ (hnpa ▸ hmem) hmatch hfail

/-- The payload used in the C5 witness: empty id, one placement matching
the current workspace. -/
def propC5 : CardProp :=
  { id := "", data := "d", avatars := [("ws1/a/", defaultFeature)] }

/-- A render oracle on which every avatar render fails. -/
def renderOkNone : String → Bool := fun _ => false

/-- Witness for C5 at a concrete payload whose only render fails. -/
theorem C5_createCard_best_effort_witness :
    ("ws1/a/", defaultFeature) ∈ propC5.avatars
    ∧ strContains "ws1/a/" baseState.workspaceUrl = true
    ∧ renderOkNone ("ws1/a/" ++ (createCard baseState propC5 7 renderOkNone).2) = false
    ∧ ("ws1/a/" ++ (createCard baseState propC5 7 renderOkNone).2)
        ∈ (createCard baseState propC5 7 renderOkNone).1.renderFailureLogs
    ∧ (∃ fp, lookupKey (createCard baseState propC5 7 renderOkNone).2
          (createCard baseState propC5 7 renderOkNone).1.cards = some fp
        ∧ lookupKey (createCard baseState propC5 7 renderOkNone).2
            (createCard baseState propC5 7 renderOkNone).1.cardStore = some fp
        ∧ fp.data = propC5.data
        ∧ fp.avatars = propC5.avatars) :=
  ⟨by decide, by decide, rfl,
   (C5_createCard_best_effort baseState propC5 7 renderOkNone).2.2
     "ws1/a/" defaultFeature (by decide) (by decide) rfl,
   (C5_createCard_best_effort baseState propC5 7 renderOkNone).2.1⟩

/-- The parent CardProp as deleteAvatar rewrites it: the location key of
the deleted placement removed. -/
def prunedCardProp (card : CardProp) (u : String) : CardProp :=
  { card with avatars := eraseKey (getAvatarLocation u) card.avatars }

/-- C6: deleteAvatar on a registered url of a card with more than one
placement removes exactly that placement: the registry entry, the window,
the in-memory and persisted workspace placement-list entries and the
location key inside the parent prop; the parent card stays registered
with every other placement and every other registry entry untouched, and
the parent is re-persisted. -/
theorem C6_deleteAvatar_removes_only_target (s : AppState) (u : String)
    (av : AvatarState) (card : CardProp)
    (h1 : lookupKey u s.avatars = some av)
    (h2 : lookupKey (getIdFromUrl u) s.cards = some card)
    (_h3 : 1 < card.avatars.length) :
    lookupKey u (deleteAvatar s u).avatars = none
    ∧ u ∈ (deleteAvatar s u).destroyedWindows
    ∧ u ∉ (deleteAvatar s u).wsAvatars
    ∧ u ∉ (deleteAvatar s u).wsStore
    ∧ (∀ v, v ≠ u → lookupKey v (deleteAvatar s u).avatars = lookupKey v s.avatars)
    ∧ (∀ v, v ≠ u → ((v ∈ (deleteAvatar s u).wsAvatars) ↔ v ∈ s.wsAvatars))
    ∧ (∀ v, v ≠ u → ((v ∈ (deleteAvatar s u).wsStore) ↔ v ∈ s.wsStore))
    ∧ lookupKey (getIdFromUrl u) (deleteAvatar s u).cards = some (prunedCardProp card u)
    ∧ (prunedCardProp card u).id = card.id
    ∧ (prunedCardProp card u).data = card.data
    ∧ lookupKey (getAvatarLocation u) (prunedCardProp card u).avatars = none
    ∧ (∀ loc, loc ≠ getAvatarLocation u →
        lookupKey loc (prunedCardProp card u).avatars = lookupKey loc card.avatars)
    ∧ lookupKey (prunedCardProp card u).id (deleteAvatar s u).cardStore
        = some (prunedCardProp card u)
    ∧ (∀ j, j ≠ getIdFromUrl u →
        lookupKey j (deleteAvatar s u).cards = lookupKey j s.cards) := by
  have heq : deleteAvatar s u
      = saveCard
          { s with avatars := eraseKey u s.avatars
                   destroyedWindows := s.destroyedWindows ++ [u]
                   wsStore := deleteAvatarUrl s.wsStore u
                   wsAvatars := s.wsAvatars.filter (fun v => v != u)
                   cards := setKey (getIdFromUrl u) (prunedCardProp card u) s.cards }
          (prunedCardProp card u) := by
    simp only [deleteAvatar, h1, getCardFromUrl, h2]
    rfl
  rw [heq]
  refine ⟨?_, ?_, ?_, ?_, ?_, ?_, ?_, ?_, rfl, rfl, ?_, ?_, ?_, ?_⟩
  · exact lookupKey_eraseKey_self ..
  · simp [saveCard]
  · simp [saveCard, List.mem_filter]
  · simp [saveCard, deleteAvatarUrl, List.mem_filter]
  · intro v hv
    exact lookupKey_eraseKey_ne _ hv
  · intro v hv
    simp [saveCard, List.mem_filter, hv]
  · intro v hv
    simp [saveCard, deleteAvatarUrl, List.mem_filter, hv]
  · exact lookupKey_setKey_self ..
  · exact lookupKey_eraseKey_self ..
  · intro loc hloc
    exact lookupKey_eraseKey_ne _ hloc
  · show lookupKey (prunedCardProp card u).id
      (setKey (prunedCardProp card u).id (prunedCardProp card u) s.cardStore)
      = some (prunedCardProp card u)
    exact lookupKey_setKey_self ..
  · intro j hj
    exact lookupKey_setKey_ne _ _ hj

def avatar6a : AvatarState :=
  newAvatarState (mkAvatarProp "ws1/id6" (some "d6") (some defaultFeature))

def avatar6b : AvatarState :=
  newAvatarState (mkAvatarProp "ws1/x/id6" (some "d6") (some (featZ 2)))

/-- A card with two placements, both registered. -/
def prop6 : CardProp :=
  { id := "id6", data := "d6", avatars := [("ws1/", defaultFeature), ("ws1/x/", featZ 2)] }

def state6 : AppState :=
  { baseState with cards := [("id6", prop6)]
                   avatars := [("ws1/id6", avatar6a), ("ws1/x/id6", avatar6b)]
                   wsAvatars := ["ws1/id6", "ws1/x/id6"]
                   cardStore := [("id6", prop6)]
                   wsStore := ["ws1/id6", "ws1/x/id6"] }

/-- Witness for C6 at a concrete two-placement card. -/
theorem C6_deleteAvatar_removes_only_target_witness :
    lookupKey "ws1/x/id6" state6.avatars = some avatar6b
    ∧ lookupKey (getIdFromUrl "ws1/x/id6") state6.cards = some prop6
    ∧ 1 < prop6.avatars.length
    ∧ lookupKey "ws1/x/id6" (deleteAvatar state6 "ws1/x/id6").avatars = none
    ∧ lookupKey (getIdFromUrl "ws1/x/id6") (deleteAvatar state6 "ws1/x/id6").cards
        = some (prunedCardProp prop6 "ws1/x/id6")
    ∧ lookupKey "ws1/id6" (deleteAvatar state6 "ws1/x/id6").avatars
        = lookupKey "ws1/id6" state6.avatars := by
  refine ⟨rfl, rfl, by decide, ?_, ?_, ?_⟩
  · exact (C6_deleteAvatar_removes_only_target state6 "ws1/x/id6" avatar6b prop6
      rfl rfl (by decide)).1
  · exact (C6_deleteAvatar_removes_only_target state6 "ws1/x/id6" avatar6b prop6
      rfl rfl (by decide)).2.2.2.2.2.2.2.1
  · exact (C6_deleteAvatar_removes_only_target state6 "ws1/x/id6" avatar6b prop6
      rfl rfl (by decide)).2.2.2.2.1 "ws1/id6" (by decide)

theorem appReady_empty {s0 : AppState} (seed : Nat) (h : s0.wsStore = []) :
    appReady s0 seed = appReadyFinish (appReadyEmptyBranch s0 seed) := by
  simp [appReady, getAvatarUrlList, h]

theorem appReady_nonempty {s0 : AppState} (seed : Nat) (h : s0.wsStore ≠ []) :
    appReady s0 seed = appReadyFinish (appReadyLoadBranch s0 s0.wsStore) := by
  simp [appReady, getAvatarUrlList, isEmpty_false_of_ne_nil h]

/-- What the shared tail does to the empty-branch result: exactly one
default card registered and persisted. -/
theorem emptyBranch_spec (s0 : AppState) (seed : Nat) (hc : s0.cards = []) :
    (appReadyFinish (appReadyEmptyBranch s0 seed)).1.cards
      = [(generateNewCardId seed,
          defaultCardProp (generateNewCardId seed) s0.workspaceUrl)]
    ∧ lookupKey (generateNewCardId seed)
        (appReadyFinish (appReadyEmptyBranch s0 seed)).1.cardStore
      = some (defaultCardProp (generateNewCardId seed) s0.workspaceUrl) := by
  constructor
  · have e1 : (appReadyFinish (appReadyEmptyBranch s0 seed)).1.cards
        = (appReadyEmptyBranch s0 seed).1.cards := by
      show (materializeAvatars _ _).cards = _
      exact materializeAvatars_cards _ _
    have e2 : (appReadyEmptyBranch s0 seed).1.cards
        = setKey (generateNewCardId seed)
            (defaultCardProp (generateNewCardId seed) s0.workspaceUrl) s0.cards := rfl
    rw [e1, e2, hc]
    rfl
  · have e1 : (appReadyFinish (appReadyEmptyBranch s0 seed)).1.cardStore
        = (appReadyEmptyBranch s0 seed).1.cardStore := by
      show (materializeAvatars _ _).cardStore = _
      exact materializeAvatars_cardStore _ _
    have e2 : (appReadyEmptyBranch s0 seed).1.cardStore
        = setKey (generateNewCardId seed)
            (defaultCardProp (generateNewCardId seed) s0.workspaceUrl) s0.cardStore := rfl
    rw [e1, e2]
    exact lookupKey_setKey_self ..

/-- What the shared tail does to the load-branch result on a fresh launch
state: each unique card id read exactly once, each recorded placement
registered and materialized, and the moveTop pass sorted ascending by
the persisted z. -/
theorem loadBranch_spec (s0 : AppState)
    (ha : s0.avatars = []) (hr : s0.readOps = [])
    (hnd : s0.wsStore.Nodup)
    (hcons : ∀ u ∈ s0.wsStore, (lookupKey (getIdFromUrl u) s0.cardStore).isSome = true)
    (hid : ∀ j p, lookupKey j s0.cardStore = some p → p.id = j) :
    (appReadyFinish (appReadyLoadBranch s0 s0.wsStore)).1.readOps.Nodup
    ∧ (∀ id, id ∈ (appReadyFinish (appReadyLoadBranch s0 s0.wsStore)).1.readOps
        ↔ id ∈ s0.wsStore.map getIdFromUrl)
    ∧ (∀ id, id ∈ s0.wsStore.map getIdFromUrl →
        lookupKey id (appReadyFinish (appReadyLoadBranch s0 s0.wsStore)).1.cards
          = lookupKey id s0.cardStore)
    ∧ keysOf (appReadyFinish (appReadyLoadBranch s0 s0.wsStore)).1.avatars = s0.wsStore
    ∧ (appReadyFinish (appReadyLoadBranch s0 s0.wsStore)).2.Perm s0.wsStore
    ∧ (appReadyFinish (appReadyLoadBranch s0 s0.wsStore)).2.Pairwise
        (fun a b => zOf (appReadyFinish (appReadyLoadBranch s0 s0.wsStore)).1 a
          ≤ zOf (appReadyFinish (appReadyLoadBranch s0 s0.wsStore)).1 b)
    ∧ (∀ u ∈ s0.wsStore,
        zOf (appReadyFinish (appReadyLoadBranch s0 s0.wsStore)).1 u = storedZ s0 u) := by
  have hav0 : (loadCards s0 (uniqueAux [] (s0.wsStore.map getIdFromUrl))).avatars = [] := by
    rw [loadCards_avatars, ha]
  have hfresh : ∀ u ∈ s0.wsStore,
      lookupKey u (loadCards s0 (uniqueAux [] (s0.wsStore.map getIdFromUrl))).avatars
        = none := by
    intro u hu
    rw [hav0]
    rfl
  have hkeys : keysOf (appReadyFinish (appReadyLoadBranch s0 s0.wsStore)).1.avatars
      = s0.wsStore := by
    show keysOf (materializeAvatars
      (loadCards s0 (uniqueAux [] (s0.wsStore.map getIdFromUrl))) s0.wsStore).avatars = _
    rw [materializeAvatars_keysOf hnd hfresh, hav0]
    rfl
  have hro : (appReadyFinish (appReadyLoadBranch s0 s0.wsStore)).1.readOps
      = uniqueAux [] (s0.wsStore.map getIdFromUrl) := by
    show (materializeAvatars
      (loadCards s0 (uniqueAux [] (s0.wsStore.map getIdFromUrl))) s0.wsStore).readOps = _
    rw [materializeAvatars_readOps, loadCards_readOps, hr]
    rfl
  have hcards : ∀ id ∈ s0.wsStore.map getIdFromUrl,
      lookupKey id (appReadyFinish (appReadyLoadBranch s0 s0.wsStore)).1.cards
        = lookupKey id s0.cardStore := by
    intro id hid2
    show lookupKey id (materializeAvatars
      (loadCards s0 (uniqueAux [] (s0.wsStore.map getIdFromUrl))) s0.wsStore).cards = _
    rw [materializeAvatars_cards]
    obtain ⟨u, hu, huid⟩ := List.mem_map.mp hid2
    have hsome := hcons u hu
    rw [huid] at hsome
    obtain ⟨p, hp⟩ := Option.isSome_iff_exists.mp hsome
    rw [hp]
    exact loadCards_lookup_mem hid (mem_uniqueAux.mpr ⟨hid2, by simp⟩) hp
  have hmt : (appReadyFinish (appReadyLoadBranch s0 s0.wsStore)).2
      = sortByZ (zOf (appReadyFinish (appReadyLoadBranch s0 s0.wsStore)).1)
          s0.wsStore := by
    have hall : ∀ k ∈ sortByZ (zOf (appReadyFinish (appReadyLoadBranch s0 s0.wsStore)).1)
        s0.wsStore,
        (lookupKey k (appReadyFinish (appReadyLoadBranch s0 s0.wsStore)).1.avatars).isSome
          = true := by
      intro k hk
      have hkL : k ∈ s0.wsStore := (perm_sortByZ _ _).mem_iff.mp hk
      have hkk : k ∈ keysOf (appReadyFinish (appReadyLoadBranch s0 s0.wsStore)).1.avatars := by
        rw [hkeys]
        exact hkL
      exact lookupKey_isSome_of_mem_keysOf hkk
    show (sortByZ (zOf (appReadyFinish (appReadyLoadBranch s0 s0.wsStore)).1)
        (keysOf (appReadyFinish (appReadyLoadBranch s0 s0.wsStore)).1.avatars)).filter
        (fun k =>
          (lookupKey k (appReadyFinish (appReadyLoadBranch s0 s0.wsStore)).1.avatars).isSome)
      = _
    rw [hkeys]
    exact filter_eq_self_of_all hall
  have hz : ∀ u ∈ s0.wsStore,
      zOf (appReadyFinish (appReadyLoadBranch s0 s0.wsStore)).1 u = storedZ s0 u := by
    intro u hu
    have hlk : lookupKey u (appReadyFinish (appReadyLoadBranch s0 s0.wsStore)).1.avatars
        = some (newAvatarState (mkAvatarProp u
            (getCardData (loadCards s0 (uniqueAux [] (s0.wsStore.map getIdFromUrl))) u)
            (getAvatarPropOf (loadCards s0 (uniqueAux [] (s0.wsStore.map getIdFromUrl))) u))) := by
      show lookupKey u (materializeAvatars
        (loadCards s0 (uniqueAux [] (s0.wsStore.map getIdFromUrl))) s0.wsStore).avatars = _
      exact materializeAvatars_lookup_mem hnd hu
    obtain ⟨p, hp⟩ := Option.isSome_iff_exists.mp (hcons u hu)
    have hplook : lookupKey (getIdFromUrl u)
        (loadCards s0 (uniqueAux [] (s0.wsStore.map getIdFromUrl))).cards = some p :=
      loadCards_lookup_mem hid
        (mem_uniqueAux.mpr ⟨List.mem_map_of_mem _ hu, by simp⟩) hp
    simp only [zOf, hlk, newAvatarState, mkAvatarProp, getAvatarPropOf, getCardFromUrl,
      hplook, storedZ, hp, Option.some_bind]
  exact ⟨hro ▸ nodup_uniqueAux _ _,
    fun id => by rw [hro]; exact mem_uniqueAux.trans (by simp),
    hcards, hkeys, hmt ▸ perm_sortByZ _ _, hmt ▸ sorted_sortByZ _ _, hz⟩

/-- C7: on launch with a fresh registry, an empty recorded-placement list
makes the app create exactly one default new card, registered and
persisted under a fresh id; a non-empty list makes it read each unique
underlying card id exactly once, register each loaded card, materialize
exactly one avatar per recorded placement, and raise the windows in
ascending persisted z order (back to front). -/
theorem C7_startup_behavior (s0 : AppState) (seed : Nat)
    (hc : s0.cards = []) (ha : s0.avatars = []) (hr : s0.readOps = [])
    (hnd : s0.wsStore.Nodup)
    (hcons : ∀ u ∈ s0.wsStore, (lookupKey (getIdFromUrl u) s0.cardStore).isSome = true)
    (hid : ∀ j p, lookupKey j s0.cardStore = some p → p.id = j) :
    (s0.wsStore = [] →
      (appReady s0 seed).1.cards
        = [(generateNewCardId seed,
            defaultCardProp (generateNewCardId seed) s0.workspaceUrl)]
      ∧ lookupKey (generateNewCardId seed) (appReady s0 seed).1.cardStore
        = some (defaultCardProp (generateNewCardId seed) s0.workspaceUrl))
    ∧ (s0.wsStore ≠ [] →
      (appReady s0 seed).1.readOps.Nodup
      ∧ (∀ id, id ∈ (appReady s0 seed).1.readOps ↔ id ∈ s0.wsStore.map getIdFromUrl)
      ∧ (∀ id, id ∈ s0.wsStore.map getIdFromUrl →
          lookupKey id (appReady s0 seed).1.cards = lookupKey id s0.cardStore)
      ∧ keysOf (appReady s0 seed).1.avatars = s0.wsStore
      ∧ (appReady s0 seed).2.Perm s0.wsStore
      ∧ (appReady s0 seed).2.Pairwise
          (fun a b => zOf (appReady s0 seed).1 a ≤ zOf (appReady s0 seed).1 b)
      ∧ (∀ u ∈ s0.wsStore, zOf (appReady s0 seed).1 u = storedZ s0 u)) := by
  constructor
  · intro h
    rw [appReady_empty seed h]
    exact emptyBranch_spec s0 seed hc
  · intro h
    rw [appReady_nonempty seed h]
    exact loadBranch_spec s0 ha hr hnd hcons hid

/-- A second persisted card whose only placement has a negative z. -/
def prop2z : CardProp :=
  { id := "id2", data := "x", avatars := [("ws1/b/", featZ (-3))] }

/-- A fresh launch state with two recorded placements over two cards. -/
def stateC7 : AppState :=
  { baseState with cardStore := [("id1", prop1), ("id2", prop2z)]
                   wsStore := ["ws1/id1", "ws1/b/id2"] }

/-- Witness for C7 at a concrete two-placement launch state. -/
theorem C7_startup_behavior_witness :
    stateC7.cards = [] ∧ stateC7.avatars = [] ∧ stateC7.readOps = []
    ∧ stateC7.wsStore.Nodup
    ∧ (∀ u ∈ stateC7.wsStore,
        (lookupKey (getIdFromUrl u) stateC7.cardStore).isSome = true)
    ∧ (∀ j p, lookupKey j stateC7.cardStore = some p → p.id = j)
    ∧ stateC7.wsStore ≠ []
    ∧ keysOf (appReady stateC7 0).1.avatars = stateC7.wsStore
    ∧ (appReady stateC7 0).2.Perm stateC7.wsStore
    ∧ (appReady stateC7 0).2.Pairwise
        (fun a b => zOf (appReady stateC7 0).1 a ≤ zOf (appReady stateC7 0).1 b)
    ∧ (∀ u ∈ stateC7.wsStore, zOf (appReady stateC7 0).1 u = storedZ stateC7 u) := by
  have hid : ∀ j p, lookupKey j stateC7.cardStore = some p → p.id = j := by
    intro j p hp
    by_cases h1 : j = "id1"
    · subst h1
      have h : lookupKey "id1" stateC7.cardStore = some prop1 := rfl
      rw [h] at hp
      cases hp
      rfl
    · by_cases h2 : j = "id2"
      · subst h2
        have h : lookupKey "id2" stateC7.cardStore = some prop2z := rfl
        rw [h] at hp
        cases hp
        rfl
      · have hn1 : ¬(("id1" : String) = j) := fun he => h1 he.symm
        have hn2 : ¬(("id2" : String) = j) := fun he => h2 he.symm
        have h : lookupKey j stateC7.cardStore = none := by
          show lookupKey j [("id1", prop1), ("id2", prop2z)] = none
          simp [lookupKey, hn1, hn2]
        rw [h] at hp
        cases hp
  refine ⟨rfl, rfl, rfl, by decide, by decide, hid, by decide, ?_, ?_, ?_, ?_⟩
  · exact ((C7_startup_behavior stateC7 0 rfl rfl rfl (by decide) (by decide) hid).2
      (by decide)).2.2.2.1
  · exact ((C7_startup_behavior stateC7 0 rfl rfl rfl (by decide) (by decide) hid).2
      (by decide)).2.2.2.2.1
  · exact ((C7_startup_behavior stateC7 0 rfl rfl rfl (by decide) (by decide) hid).2
      (by decide)).2.2.2.2.2.1
  · exact ((C7_startup_behavior stateC7 0 rfl rfl rfl (by decide) (by decide) hid).2
      (by decide)).2.2.2.2.2.2

theorem headD_mem {l : List String} (h : l ≠ []) (d : String) : l.headD d ∈ l := by
  cases l with
  | nil => exact absurd rfl h
  | cons a t => exact List.mem_cons_self a t

/-- C8: for a url registered in the avatars map, bring-to-front returns
one plus the maximum geometry.z over all registered avatars and
send-to-back returns one less than the minimum; for an unregistered url
both return no value. -/
theorem C8_z_order_request_values (s : AppState) (u : String) (b : Bool)
    (a : AvatarState) :
    (lookupKey u s.avatars = none →
      (bringToFront s u b).2 = none ∧ (sendToBack s u).2 = none)
    ∧ (lookupKey u s.avatars = some a →
      (∃ kmax, kmax ∈ keysOf s.avatars
        ∧ (bringToFront s u b).2 = some (zOf s kmax + 1)
        ∧ ∀ k ∈ keysOf s.avatars, zOf s k ≤ zOf s kmax)
      ∧ (∃ kmin, kmin ∈ keysOf s.avatars
        ∧ (sendToBack s u).2 = some (zOf s kmin - 1)
        ∧ ∀ k ∈ keysOf s.avatars, zOf s kmin ≤ zOf s k)) := by
  constructor
  · intro h
    constructor
    · simp [bringToFront, h]
    · simp [sendToBack, h]
  · intro h
    have hmem : u ∈ keysOf s.avatars := mem_keysOf_of_lookupKey h
    have hsne : sortByZ (zOf s) (keysOf s.avatars) ≠ [] := by
      intro he
      have hu : u ∈ sortByZ (zOf s) (keysOf s.avatars) :=
        (perm_sortByZ _ _).mem_iff.mpr hmem
      rw [he] at hu
      simp at hu
    constructor
    · refine ⟨(sortByZ (zOf s) (keysOf s.avatars)).getLastD "", ?_, ?_, ?_⟩
      · exact (perm_sortByZ _ _).mem_iff.mp (getLastD_mem hsne "")
      · simp [bringToFront, h]
      · intro k hk
        exact sorted_le_getLastD (sorted_sortByZ _ _)
          ((perm_sortByZ _ _).mem_iff.mpr hk) ""
    · refine ⟨(sortByZ (zOf s) (keysOf s.avatars)).headD "", ?_, ?_, ?_⟩
      · exact (perm_sortByZ _ _).mem_iff.mp (headD_mem hsne "")
      · simp [sendToBack, h]
      · intro k hk
        exact sorted_headD_le (sorted_sortByZ _ _)
          ((perm_sortByZ _ _).mem_iff.mpr hk) ""

/-- Witness for C8 at a concrete two-avatar registry (z values 0 and 2). -/
theorem C8_z_order_request_values_witness :
    lookupKey "ws1/id6" state6.avatars = some avatar6a
    ∧ (bringToFront state6 "ws1/id6" false).2 = some 3
    ∧ (sendToBack state6 "ws1/id6").2 = some (-1)
    ∧ (∃ kmax, kmax ∈ keysOf state6.avatars
        ∧ (bringToFront state6 "ws1/id6" false).2 = some (zOf state6 kmax + 1)
        ∧ ∀ k ∈ keysOf state6.avatars, zOf state6 k ≤ zOf state6 kmax)
    ∧ (∃ kmin, kmin ∈ keysOf state6.avatars
        ∧ (sendToBack state6 "ws1/id6").2 = some (zOf state6 kmin - 1)
        ∧ ∀ k ∈ keysOf state6.avatars, zOf state6 kmin ≤ zOf state6 k)
    ∧ (bringToFront state6 "nope" false).2 = none
    ∧ (sendToBack state6 "nope").2 = none :=
  ⟨rfl, rfl, rfl,
   ((C8_z_order_request_values state6 "ws1/id6" false avatar6a).2 rfl).1,
   ((C8_z_order_request_values state6 "ws1/id6" false avatar6a).2 rfl).2,
   ((C8_z_order_request_values state6 "nope" false avatar6a).1 rfl).1,
   ((C8_z_order_request_values state6 "nope" false avatar6a).1 rfl).2⟩

/-- C9: blur events are not gated by the process-wide focus-event
permission: with its suppress flag clear, the blur listener emits
card-blurred even while the global permission is false, whereas the
focus listener in the same state emits nothing. -/
theorem C9_blur_not_gated_by_permission (a : AvatarState)
    (hb : a.suppressBlurEventOnce = false)
    (hf : a.suppressFocusEventOnce = false)
    (hr : a.recaptureGlobalFocusEventAfterLocalFocusEvent = false) :
    (blurListenerStep false a).2.2 = [CardEvent.cardBlurred]
    ∧ (focusListenerStep false a).2.2 = [] := by
  constructor
  · simp [blurListenerStep, hb]
  · simp [focusListenerStep, hf, hr]

/-- Witness for C9 at a freshly constructed avatar. -/
theorem C9_blur_not_gated_by_permission_witness :
    avatar1.suppressBlurEventOnce = false
    ∧ avatar1.suppressFocusEventOnce = false
    ∧ avatar1.recaptureGlobalFocusEventAfterLocalFocusEvent = false
    ∧ ((blurListenerStep false avatar1).2.2 = [CardEvent.cardBlurred]
       ∧ (focusListenerStep false avatar1).2.2 = []) :=
  ⟨rfl, rfl, rfl, C9_blur_not_gated_by_permission avatar1 rfl rfl rfl⟩

theorem generateNewCardId_ne_empty (seed : Nat) : generateNewCardId seed ≠ "" := by
  intro h
  have h2 : ('c' :: (toString seed).data) = ([] : List Char) := congrArg String.data h
  exact List.noConfusion h2

/-- C10: a New card built from a CardProp with an empty id gets a freshly
generated non-empty id, which is what createCard returns and uses as the
cards-map key; a New card given a string argument, and a Load card given
a CardProp or no argument, throw a TypeError. -/
theorem C10_card_ctor_fresh_id_and_type_errors (p : CardProp) (seed : Nat)
    (ws x : String) (s : AppState) (renderOk : String → Bool) :
    (p.id = "" →
      cardConstruct CardInitializeType.New (CardCtorArg.propArg p) seed ws
        = Except.ok (CardCtorResult.newCard { p with id := generateNewCardId seed }))
    ∧ (createCard s p seed renderOk).2 = (newCardProp p seed).id
    ∧ (newCardProp p seed).id ≠ ""
    ∧ lookupKey (newCardProp p seed).id (createCard s p seed renderOk).1.cards
        = some (newCardProp p seed)
    ∧ (∃ msg, cardConstruct CardInitializeType.New (CardCtorArg.strArg x) seed ws
        = Except.error msg)
    ∧ (∃ msg, cardConstruct CardInitializeType.Load (CardCtorArg.propArg p) seed ws
        = Except.error msg)
    ∧ (∃ msg, cardConstruct CardInitializeType.Load CardCtorArg.undef seed ws
        = Except.error msg) := by
  have hcards : (createCard s p seed renderOk).1.cards
      = setKey (newCardProp p seed).id (newCardProp p seed) s.cards := by
    show (createCardLoop (newCardProp p seed).id renderOk _ _).cards = _
    rw [createCardLoop_cards]
    rfl
  refine ⟨?_, rfl, ?_, ?_, ⟨_, rfl⟩, ⟨_, rfl⟩, ⟨_, rfl⟩⟩
  · intro hp
    simp [cardConstruct, newCardProp, hp]
  · rw [newCardProp]
    by_cases hp : p.id = ""
    · simp only [hp, if_true]
      exact generateNewCardId_ne_empty seed
    · simp only [hp, if_false]
      exact hp
  · rw [hcards]
    exact lookupKey_setKey_self ..

/-- A payload with an empty id for the C10 witness. -/
def propC10 : CardProp := { id := "", data := "n", avatars := [] }

/-- Witness for C10 at a concrete empty-id payload. -/
theorem C10_card_ctor_fresh_id_and_type_errors_witness :
    propC10.id = ""
    ∧ cardConstruct CardInitializeType.New (CardCtorArg.propArg propC10) 3 "ws1/"
        = Except.ok (CardCtorResult.newCard { propC10 with id := generateNewCardId 3 })
    ∧ (newCardProp propC10 3).id ≠ ""
    ∧ (createCard baseState propC10 3 renderOkNone).2 = (newCardProp propC10 3).id
    ∧ lookupKey (newCardProp propC10 3).id
        (createCard baseState propC10 3 renderOkNone).1.cards
        = some (newCardProp propC10 3)
    ∧ (∃ msg, cardConstruct CardInitializeType.Load (CardCtorArg.propArg propC10) 3 "ws1/"
        = Except.error msg) :=
  ⟨rfl,
   (C10_card_ctor_fresh_id_and_type_errors propC10 3 "ws1/" "zz" baseState renderOkNone).1
     rfl,
   (C10_card_ctor_fresh_id_and_type_errors propC10 3 "ws1/" "zz" baseState
     renderOkNone).2.2.1,
   (C10_card_ctor_fresh_id_and_type_errors propC10 3 "ws1/" "zz" baseState
     renderOkNone).2.1,
   (C10_card_ctor_fresh_id_and_type_errors propC10 3 "ws1/" "zz" baseState
     renderOkNone).2.2.2.1,
   (C10_card_ctor_fresh_id_and_type_errors propC10 3 "ws1/" "zz" baseState
     renderOkNone).2.2.2.2.2.1⟩

end MediaSticky
